import Mathlib

/-!
Verification of the Kara manga-annotation tool (a PySide6 desktop
application) against its natural-language specification.

The development shallowly embeds the Python sources:

* `src/src/controllers/annotation.py` — `AnnotationData`,
  `AnnotationController.load / save / remove`;
* `src/kara/core/detection.py` and `src/kara/core/ocr.py` — the
  ready-gated detector and OCR wrappers;
* `src/src/gui/viewer/panel_viewer.py` — `PanelViewer.crop_region`;
* `src/src/app/main_window.py` — the bubble registry
  (`_add_bubble`, `_remove_bubble`, `_remove_bubble_for`,
  `clear_bubbles`), and page navigation (`load_page`, `prev_page`,
  `next_page`);
* `src/src/commands/*.py` (identical copies in
  `src/kara/core/history.py`) — `AddBubbleCommand`,
  `RemoveBubbleCommand`, `MoveBubbleCommand`.

Python machine floats are modelled by `ℚ`, Python exceptions by
`Except`, and object identity by explicit numeric identities carried in
the structures.  External collaborators (Qt widgets, the YOLO and
MangaOcr models, cv2, the file system) are modelled only through the
interface the embedded code uses, following their documented behaviour.
-/

namespace Kara

/-! ## Python / JSON values

`PyVal` models the JSON-serialisable Python values handled by
`AnnotationController`: `None`, booleans, numbers, strings, lists,
tuples and string-keyed dicts.  Python tuples are a constructor of
their own because `json.dumps` serialises them to JSON arrays, so they
come back from `json.loads` as lists. -/

inductive PyVal where
  | null : PyVal
  | bool : Bool → PyVal
  | num : ℚ → PyVal
  | str : String → PyVal
  | arr : List PyVal → PyVal
  | tup : List PyVal → PyVal
  | obj : List (String × PyVal) → PyVal
  deriving Repr

/-- Python exceptions that the embedded code can raise. -/
inductive PyErr where
  | attributeError : PyErr
  | keyError : PyErr
  | typeError : PyErr
  | valueError : PyErr
  | runtimeError : PyErr
  | indexError : PyErr
  deriving DecidableEq, Repr

mutual

/-- Effect of a `json.dumps` / `json.loads` round trip on a Python
value: every tuple becomes a list (both serialise to JSON arrays);
everything else survives unchanged. -/
def canon : PyVal → PyVal
  | .null => .null
  | .bool b => .bool b
  | .num q => .num q
  | .str s => .str s
  | .arr xs => .arr (canonList xs)
  | .tup xs => .arr (canonList xs)
  | .obj kvs => .obj (canonFields kvs)

/-- `canon` mapped over the elements of a JSON array or tuple. -/
def canonList : List PyVal → List PyVal
  | [] => []
  | x :: xs => canon x :: canonList xs

/-- `canon` mapped over the values of a JSON object. -/
def canonFields : List (String × PyVal) → List (String × PyVal)
  | [] => []
  | (k, v) :: kvs => (k, canon v) :: canonFields kvs

end

/-- Python `dict` lookup on an association list.  When a JSON document
holds duplicate keys, `json.loads` keeps the last occurrence, so the
lookup prefers later entries. -/
def dictGet (k : String) : List (String × PyVal) → Option PyVal
  | [] => none
  | (k', v) :: kvs =>
    match dictGet k kvs with
    | some w => some w
    | none => if k' = k then some v else none

/-! ## `AnnotationData` and the sidecar file
(`src/src/controllers/annotation.py`)

The `@dataclass AnnotationData` declares fields `rect`, `kind`, `done`,
`ocr`, `translation` with defaults `"bubble"`, `False`, `""`, `""`.
Python does not enforce the annotated field types, and
`AnnotationController.load` stores whatever JSON values it finds, so
every field is modelled as a `PyVal`.  Note the dataclass has no `id`
field. -/

structure AnnotationData where
  rect : PyVal
  kind : PyVal := .str "bubble"
  done : PyVal := .bool false
  ocr : PyVal := .str ""
  translation : PyVal := .str ""
  deriving Repr

/-- One entry of the `"bubbles"` list written by
`AnnotationController.save`. -/
def annEntry (a : AnnotationData) : PyVal :=
  .obj [("rect", a.rect), ("kind", a.kind), ("done", a.done),
        ("ocr", a.ocr), ("translation", a.translation)]

/-- The JSON payload `{"bubbles": [...]}` that `AnnotationController.save`
serialises to the sidecar file. -/
def savePayload (l : List AnnotationData) : PyVal :=
  .obj [("bubbles", .arr (l.map annEntry))]

/-- One entry of the parsed `"bubbles"` list, as read by
`AnnotationController.load`: `entry["rect"]` raises `KeyError` when the
key is missing and `TypeError` when the entry is not a dict; the other
four fields fall back to `entry.get(..., default)`. -/
def parseEntry : PyVal → Except PyErr AnnotationData
  | .obj kvs =>
    match dictGet "rect" kvs with
    | none => .error .keyError
    | some r =>
      .ok { rect := r,
            kind := (dictGet "kind" kvs).getD (.str "bubble"),
            done := (dictGet "done" kvs).getD (.bool false),
            ocr := (dictGet "ocr" kvs).getD (.str ""),
            translation := (dictGet "translation" kvs).getD (.str "") }
  | _ => .error .typeError

/-- The list comprehension over `entries` in `AnnotationController.load`:
the first failing entry aborts the whole comprehension. -/
def parseEntries : List PyVal → Except PyErr (List AnnotationData)
  | [] => .ok []
  | e :: es => do
    let a ← parseEntry e
    let l ← parseEntries es
    .ok (a :: l)

/-- Body of the `try` block of `AnnotationController.load` applied to the
parsed JSON document: `raw.get("bubbles", [])` raises `AttributeError`
unless `raw` is a dict; iterating a non-list `entries` value either
raises `TypeError` (numbers, booleans, `None`), or yields the items of a
tuple, or yields characters / keys — which `parseEntry` then rejects —
so a non-empty string or dict fails and empty ones yield no entries. -/
def parseDoc : PyVal → Except PyErr (List AnnotationData)
  | .obj kvs =>
    match (dictGet "bubbles" kvs).getD (.arr []) with
    | .arr es => parseEntries es
    | .tup es => parseEntries es
    | .str s => if s = "" then .ok [] else .error .typeError
    | .obj [] => .ok []
    | .obj (_ :: _) => .error .typeError
    | _ => .error .typeError
  | _ => .error .attributeError

/-- State of the per-image sidecar file as `AnnotationController.load`
observes it: missing (`ann_file.exists()` is false), unreadable
(`read_text` or `json.loads` raises), or a parsed JSON document. -/
inductive SidecarFile where
  | absent : SidecarFile
  | unreadable : SidecarFile
  | doc : PyVal → SidecarFile

/-- The list that `AnnotationController.load` emits through
`annotations_loaded`: the empty list when the file is missing or any
exception is caught, the parsed entries otherwise. -/
def loadAnnList : SidecarFile → List AnnotationData
  | .absent => []
  | .unreadable => []
  | .doc raw =>
    match parseDoc raw with
    | .ok l => l
    | .error _ => []

/-- `AnnotationController.save` followed by `AnnotationController.load`
on the same image path: the payload passes through
`json.dumps` / `write_text` / `read_text` / `json.loads` (the `canon`
normalisation) and is then parsed back. -/
def saveLoadRoundTrip (l : List AnnotationData) : List AnnotationData :=
  loadAnnList (.doc (canon (savePayload l)))

/-- The field-wise effect of the round trip on one annotation. -/
def annCanon (a : AnnotationData) : AnnotationData :=
  { rect := canon a.rect, kind := canon a.kind, done := canon a.done,
    ocr := canon a.ocr, translation := canon a.translation }

/-- `AnnotationController.remove`: it evaluates
`next((i for i, a in enumerate(self.annotations) if a.id == bubble_id), None)`.
On an empty collection the generator is exhausted and `idx` is `None`,
so nothing is deleted and no signal is emitted; on a non-empty
collection the very first `a.id` raises `AttributeError`, because
`AnnotationData` declares no `id` field.  The result pairs the
collection left in memory with the `bubble_removed` payload, `none`
meaning the signal is not emitted. -/
def annRemove (l : List AnnotationData) (bubbleId : ℤ) :
    Except PyErr (List AnnotationData × Option ℤ) :=
  match l, bubbleId with
  | [], _ => .ok ([], none)
  | _ :: _, _ => .error .attributeError

/-! ## Ready-gated detector and OCR wrappers
(`src/kara/core/detection.py`, `src/kara/core/ocr.py`)

Both wrappers start a daemon thread that loads a third-party model and
then sets a `threading.Event`; `ready()` reports whether the event is
set.  The loader assigns the model reference before setting the event,
so the two reachable states are the initial one (event clear, model
`None`) and the loaded one (event set, model assigned); the embedding
nevertheless keeps the two fields independent and quantifies over all
states.  The external model calls are modelled as opaque functions. -/

/-- Identity of an external PIL image object. -/
abbrev PILImage := ℕ

/-- Identity of an external numpy array. -/
abbrev NdArray := ℕ

/-- One box of a YOLO result: class index, confidence, and the two
coordinate encodings read off the tensors. -/
structure RawBox where
  cls : ℤ
  conf : ℚ
  xyxy : ℚ × ℚ × ℚ × ℚ
  xywh : ℚ × ℚ × ℚ × ℚ
  deriving DecidableEq, Repr

/-- The `Detection` dataclass of `src/kara/core/detection.py`. -/
structure Detection where
  cls : ℤ
  conf : ℚ
  xyxy : ℚ × ℚ × ℚ × ℚ
  xywh : ℚ × ℚ × ℚ × ℚ
  deriving DecidableEq, Repr

/-- `SpeechBubbleDetector`: the `_ready` event and the `_model`
reference (the YOLO call is abstracted as a function from the image
path to result boxes). -/
structure SpeechBubbleDetector where
  ready : Bool
  model : Option (String → List RawBox)

/-- The result loop of `SpeechBubbleDetector.detect`: boxes with
confidence below `min_conf` are skipped, the rest become `Detection`
records. -/
def detectLoop (minConf : ℚ) : List RawBox → List Detection
  | [] => []
  | b :: bs =>
    if b.conf < minConf then detectLoop minConf bs
    else ⟨b.cls, b.conf, b.xyxy, b.xywh⟩ :: detectLoop minConf bs

/-- `SpeechBubbleDetector.detect`: raises `RuntimeError` when `ready()`
is false; otherwise calls the model (`None(...)` would raise
`TypeError` if the model were unset) and filters the boxes. -/
def detect (d : SpeechBubbleDetector) (imagePath : String) (minConf : ℚ) :
    Except PyErr (List Detection) :=
  if d.ready = false then .error .runtimeError
  else
    match d.model with
    | none => .error .typeError
    | some m => .ok (detectLoop minConf (m imagePath))

/-- `OCREngine`: the `_ready` event and the `_ocr` reference (the
MangaOcr call is abstracted as a function from a PIL image to text). -/
structure OCREngine where
  ready : Bool
  ocr : Option (PILImage → String)

/-- The argument accepted by `OCREngine.recognize`: a path string, a
numpy array, a PIL image, or any other Python object (the annotation
`Union[np.ndarray, Image.Image, Path, str]` is not enforced). -/
inductive OcrInput where
  | path : String → OcrInput
  | ndarray : NdArray → OcrInput
  | pilImage : PILImage → OcrInput
  | unsupported : OcrInput

/-- The final `self._ocr(image)` call of `recognize`. -/
def ocrCall (e : OCREngine) (img : PILImage) : Except PyErr String :=
  match e.ocr with
  | none => .error .typeError
  | some f => .ok (f img)

/-- `OCREngine.recognize`: raises `RuntimeError` when `ready()` is
false; otherwise converts the input to a PIL image — `Image.open` for
paths, `Image.fromarray` on the channel-reversed array for numpy
arrays, the image itself for PIL images — and raises `ValueError` for
any other input type.  `imageOpen` and `fromarrayRev` model the
external conversions. -/
def recognize (e : OCREngine) (imageOpen : String → PILImage)
    (fromarrayRev : NdArray → PILImage) (input : OcrInput) :
    Except PyErr String :=
  if e.ready = false then .error .runtimeError
  else
    match input with
    | .path p => ocrCall e (imageOpen p)
    | .ndarray a => ocrCall e (fromarrayRev a)
    | .pilImage i => ocrCall e i
    | .unsupported => .error .valueError

/-! ## `PanelViewer.crop_region`
(`src/src/gui/viewer/panel_viewer.py`) -/

/-- Python `int(...)` on a rational: truncation toward zero. -/
def pyInt (q : ℚ) : ℤ :=
  if 0 ≤ q then ((q.num.natAbs / q.den : ℕ) : ℤ)
  else -((q.num.natAbs / q.den : ℕ) : ℤ)

/-- A `QRectF`: x, y, width, height as machine floats. -/
structure QRectF where
  x : ℚ
  y : ℚ
  w : ℚ
  h : ℚ
  deriving DecidableEq, Repr

/-- Shape of the cached cv2 image `self._orig_cv`
(`h0, w0, _ = self._orig_cv.shape`).  The pixel data is irrelevant to
the clamping logic: the returned slice `orig_cv[y:y+h, x:x+w]` is
determined by the four clamped coordinates. -/
structure CvImage where
  h0 : ℕ
  w0 : ℕ
  deriving DecidableEq, Repr

/-- The part of the `PanelViewer` state that `crop_region` reads: the
cached raw image (or `None`) and whether the photo item's pixmap is
null. -/
structure PanelViewer where
  origCv : Option CvImage
  pixmapNull : Bool

/-- `PanelViewer.crop_region`: guards against a missing image and a
null pixmap, clamps the rectangle to non-negative integers and then to
the image bounds, and returns `None` when the clamped width or height
is not positive; otherwise the slice coordinates `(x, y, w, h)` of the
returned sub-image `orig_cv[y:y+h, x:x+w]`. -/
def cropRegion (v : PanelViewer) (r : QRectF) : Option (ℤ × ℤ × ℤ × ℤ) :=
  match v.origCv with
  | none => none
  | some img =>
    if v.pixmapNull then none
    else
      let x0 := max 0 (pyInt r.x)
      let y0 := max 0 (pyInt r.y)
      let w0 := max 0 (pyInt r.w)
      let h0 := max 0 (pyInt r.h)
      let x1 := min x0 (img.w0 : ℤ)
      let y1 := min y0 (img.h0 : ℤ)
      let w1 := min w0 ((img.w0 : ℤ) - x1)
      let h1 := min h0 ((img.h0 : ℤ) - y1)
      if w1 ≤ 0 ∨ h1 ≤ 0 then none
      else some (x1, y1, w1, h1)

/-! ## Page navigation (`src/src/app/main_window.py`)

`load_page` recomputes `self.pages = sorted(path.parent.glob("*.jpg"))`
and `self.current_page_idx = self.pages.index(path)`; `prev_page` and
`next_page` step through `self.pages` under boundary guards.  File
names are modelled as naturals ordered the way Python orders the path
strings, and the `*.jpg` glob pattern as a Boolean attribute of the
file. -/

/-- A sibling file of the current page: an ordered name identity and
whether the name matches the `*.jpg` glob pattern. -/
structure PageFile where
  name : ℕ
  jpg : Bool
  deriving DecidableEq, Repr

/-- Insertion step of Python `sorted` (stable, ascending). -/
def insertSorted (a : PageFile) : List PageFile → List PageFile
  | [] => [a]
  | b :: l => if b.name ≤ a.name then b :: insertSorted a l else a :: b :: l

/-- Python `sorted` on a list of paths (insertion sort: a stable sort
producing the ascending reordering, as `sorted` does). -/
def pySorted : List PageFile → List PageFile
  | [] => []
  | a :: l => insertSorted a (pySorted l)

/-- `sorted(path.parent.glob("*.jpg"))`: the `*.jpg` siblings of the
directory, sorted. -/
def sortedJpgs (dir : List PageFile) : List PageFile :=
  pySorted (dir.filter (·.jpg))

/-- Python `list.index`: position of the first equal element,
`ValueError` when the element is missing. -/
def pyIndexOf (p : PageFile) : List PageFile → Except PyErr ℕ
  | [] => .error .valueError
  | q :: l => if q = p then .ok 0 else (pyIndexOf p l).map (· + 1)

/-- Python list subscription `l[i]` with negative-index wrap-around;
`none` models `IndexError`. -/
def pyGet (l : List PageFile) (i : ℤ) : Option PageFile :=
  let j := if i < 0 then i + l.length else i
  if 0 ≤ j then l.get? j.toNat else none

/-- The navigation state of `MainWindow`: `self.pages`,
`self.current_page_idx` (initially `-1`), `self.cur_img_path` and the
`self._dirty` flag. -/
structure NavState where
  pages : List PageFile
  currentPageIdx : ℤ
  curImgPath : Option PageFile
  dirty : Bool
  deriving DecidableEq, Repr

/-- `MainWindow.load_page`.  `discardOk` is the user's answer to the
"Discard annotations?" dialog (consulted only when `_dirty` is set) and
`imgOk` tells whether `cv2.imread` succeeded; both model external
calls.  On success the method sets `cur_img_path`, recomputes `pages`
from the directory `dir` of `path`, and assigns `current_page_idx =
pages.index(path)`; when `path` is not among the sorted `*.jpg`
siblings that `index` call raises `ValueError` after `cur_img_path` and
`pages` were already reassigned, so `current_page_idx` keeps its old
value. -/
def loadPage (s : NavState) (dir : List PageFile) (p : PageFile)
    (discardOk : Bool) (imgOk : Bool) : NavState :=
  if s.dirty ∧ discardOk = false then s
  else if imgOk = false then s
  else
    let pages := sortedJpgs dir
    match pyIndexOf p pages with
    | .ok i =>
      { s with curImgPath := some p, pages := pages, currentPageIdx := (i : ℤ) }
    | .error _ =>
      { s with curImgPath := some p, pages := pages }

/-- `MainWindow.prev_page`: loads `pages[current_page_idx - 1]` only
when `current_page_idx > 0`. -/
def prevPage (s : NavState) (dir : List PageFile)
    (discardOk : Bool) (imgOk : Bool) : NavState :=
  if 0 < s.currentPageIdx then
    match pyGet s.pages (s.currentPageIdx - 1) with
    | some p => loadPage s dir p discardOk imgOk
    | none => s
  else s

/-- `MainWindow.next_page`: loads `pages[current_page_idx + 1]` only
when `current_page_idx < len(pages) - 1`. -/
def nextPage (s : NavState) (dir : List PageFile)
    (discardOk : Bool) (imgOk : Bool) : NavState :=
  if s.currentPageIdx < (s.pages.length : ℤ) - 1 then
    match pyGet s.pages (s.currentPageIdx + 1) with
    | some p => loadPage s dir p discardOk imgOk
    | none => s
  else s

/-! ## The bubble registry of `MainWindow`
(`src/src/app/main_window.py`) and the undo commands
(`src/src/commands/*.py`)

`MainWindow` keeps `self._rect_list`, a list of pairs
`(QListWidgetItem, MoveableRectItem)`, next to `self.bubble_list`, the
`QListWidget` whose rows display the bubbles, and the graphics scene
holding the rectangles.  Qt object identity is modelled by numeric
identities: `lid` for list items (allocated from a counter, since
`_add_bubble` constructs a fresh `QListWidgetItem` each time) and `rid`
for rectangle items; Python `is` becomes identity equality. -/

/-- A `MoveableRectItem` as the registry reads it: its identity and the
`kind` / `done` attributes consulted by `_add_bubble`. -/
structure RectItem where
  rid : ℕ
  kind : String
  done : Bool
  deriving DecidableEq, Repr

/-- A `QListWidgetItem` of the bubble list: its identity, displayed
text, check state, and the rectangle identity stored under
`Qt.UserRole` by `li.setData(Qt.UserRole, rect_item)`. -/
structure BListItem where
  lid : ℕ
  text : String
  checked : Bool
  dataRect : ℕ
  deriving DecidableEq, Repr

/-- The registry state of `MainWindow`: `_rect_list`, the rows of
`bubble_list`, the rectangle items present in the graphics scene, the
allocator for fresh `QListWidgetItem` identities, and the `_dirty`
flag. -/
structure MainWin where
  rectList : List (BListItem × RectItem)
  bubbleList : List BListItem
  scene : List RectItem
  nextLid : ℕ
  dirty : Bool
  deriving DecidableEq, Repr

/-- The `MainWindow` registry right after construction. -/
def mainWin0 : MainWin :=
  { rectList := [], bubbleList := [], scene := [], nextLid := 0, dirty := false }

/-- `QGraphicsScene.addItem`: adding an item that is already in the
scene is a no-op (Qt warns and ignores it). -/
def sceneAdd (s : List RectItem) (r : RectItem) : List RectItem :=
  if r ∈ s then s else s ++ [r]

/-- `QGraphicsScene.removeItem`: removes the item if present (Qt warns
and ignores an item that is not in the scene). -/
def sceneRemove (s : List RectItem) (r : RectItem) : List RectItem :=
  s.erase r

/-- `MainWindow._add_bubble`: refuses rectangles that are already
registered (`any(r is rect_item for _, r in self._rect_list)`),
otherwise builds a fresh list item labelled `"{label} {n}"` with the
rectangle stored under `Qt.UserRole`, appends the pair to `_rect_list`
and the item to `bubble_list`, and returns the list item.  The
`isinstance` guard is enforced by the type of `r`; the signal
connections, `_last_geom` bookkeeping and progress update keep no state
in this model. -/
def addBubble (s : MainWin) (r : RectItem) : MainWin × Option BListItem :=
  if s.rectList.any (fun p => p.2.rid = r.rid) then (s, none)
  else
    let existing := s.rectList.filter (fun p => p.2.kind = r.kind)
    let label := if r.kind = "bubble" then "Bubble" else "Free Text"
    let li : BListItem :=
      { lid := s.nextLid,
        text := label ++ " " ++ toString (existing.length + 1),
        checked := r.done,
        dataRect := r.rid }
    ({ s with rectList := s.rectList ++ [(li, r)],
              bubbleList := s.bubbleList ++ [li],
              nextLid := s.nextLid + 1 },
     some li)

/-- `MainWindow._remove_bubble`: `li, rect = self._rect_list.pop(idx)`
(Python indexing: negative indices wrap, an out-of-range index raises
`IndexError` before any mutation), then `removeItem(rect)` on the scene
and `takeItem(self.bubble_list.row(li))` on the bubble list —
`row(li)` is the first row holding `li`, and `takeItem(-1)` on a
missing item is a no-op, which `List.erase` renders faithfully. -/
def removeBubbleAt (s : MainWin) (jn : ℕ) : MainWin :=
  match s.rectList.get? jn with
  | some (li, r) =>
    { s with rectList := s.rectList.eraseIdx jn,
             scene := sceneRemove s.scene r,
             bubbleList := s.bubbleList.erase li }
  | none => s

def removeBubble (s : MainWin) (idx : ℤ) : MainWin :=
  let j := if idx < 0 then idx + s.rectList.length else idx
  if 0 ≤ j ∧ j < (s.rectList.length : ℤ) then removeBubbleAt s j.toNat
  else s

/-- Position of the first pair of `_rect_list` whose rectangle is `r`
(the `r is rect` scan of `_remove_bubble_for`). -/
def findRectIdx (r : RectItem) : List (BListItem × RectItem) → Option ℕ
  | [] => none
  | p :: l =>
    if p.2.rid = r.rid then some 0 else (findRectIdx r l).map (· + 1)

/-- `MainWindow._remove_bubble_for`: removes the first pair holding the
rectangle, if any. -/
def removeBubbleFor (s : MainWin) (r : RectItem) : MainWin :=
  match findRectIdx r s.rectList with
  | some j => removeBubble s (j : ℤ)
  | none => s

/-- Removing every registered rectangle from the scene, in list order
(the loop of `clear_bubbles`). -/
def sceneRemoveAll (sc : List RectItem) : List (BListItem × RectItem) → List RectItem
  | [] => sc
  | p :: l => sceneRemoveAll (sceneRemove sc p.2) l

/-- `MainWindow.clear_bubbles`: removes every registered rectangle from
the scene, clears the widget and empties `_rect_list`. -/
def clearBubbles (s : MainWin) : MainWin :=
  { s with scene := sceneRemoveAll s.scene s.rectList,
           bubbleList := [],
           rectList := [] }

/-- First row of the bubble list whose item stores the rectangle
identity `rid` under `Qt.UserRole`, together with that item (the
constructor scan of `RemoveBubbleCommand`). -/
def findRowItem (rid : ℕ) : List BListItem → Option (ℕ × BListItem)
  | [] => none
  | li :: l =>
    if li.dataRect = rid then some (0, li)
    else (findRowItem rid l).map (fun q => (q.1 + 1, q.2))

/-- The state a `RemoveBubbleCommand` captures at construction: the
row where the rectangle's list item sat, the list item itself, and the
rectangle. -/
structure RemoveCmd where
  row : ℕ
  listItem : BListItem
  rectItem : RectItem
  deriving DecidableEq, Repr

/-- `RemoveBubbleCommand.__init__`: scans the bubble list for the row
whose item's `Qt.UserRole` data is the rectangle and captures
`(row, listitem)`.  When the scan finds nothing the Python object
leaves `_row` and `_listitem` unset (and `undo` would raise
`AttributeError`); that degenerate command is modelled as `none`. -/
def mkRemoveCmd (s : MainWin) (r : RectItem) : Option RemoveCmd :=
  (findRowItem r.rid s.bubbleList).map (fun q => ⟨q.1, q.2, r⟩)

/-- `RemoveBubbleCommand.redo`: `self._main_win._remove_bubble_for(self._rect_item)`.
The command object itself is returned unchanged — the method assigns no
attribute of `self`. -/
def removeCmdRedo (c : RemoveCmd) (s : MainWin) : RemoveCmd × MainWin :=
  (c, removeBubbleFor s c.rectItem)

/-- Python `list.insert` and `QListWidget.insertItem`: both clamp an
out-of-range position to the end of the list. -/
def pyInsert (n : ℕ) (a : α) (l : List α) : List α :=
  if l.length ≤ n then l ++ [a] else l.insertIdx n a

/-- `RemoveBubbleCommand.undo`: re-inserts the captured pair at the
captured row of `_rect_list`, the captured item at the same row of the
bubble list, adds the rectangle back to the scene
(`viewer.add_graphics_item`) and marks the window dirty.  The command
object is returned unchanged — the method assigns no attribute of
`self`. -/
def removeCmdUndo (c : RemoveCmd) (s : MainWin) : RemoveCmd × MainWin :=
  (c,
   { s with rectList := pyInsert c.row (c.listItem, c.rectItem) s.rectList,
            bubbleList := pyInsert c.row c.listItem s.bubbleList,
            scene := sceneAdd s.scene c.rectItem,
            dirty := true })

/-- The fields of an `AddBubbleCommand`: the rectangle captured at
construction and `self.list_item`, which `__init__` sets to `None`.
The `main_win` back-reference is the surrounding `MainWin` state. -/
structure AddCmd where
  rect : RectItem
  listItem : Option BListItem
  deriving DecidableEq, Repr

/-- `AddBubbleCommand.__init__`: captures the rectangle and sets
`self.list_item = None`. -/
def mkAddCmd (r : RectItem) : AddCmd :=
  { rect := r, listItem := none }

/-- `AddBubbleCommand.redo`: adds the rectangle to the scene, calls
`_add_bubble`, and assigns the returned list item to
`self.list_item` — mutating the command object. -/
def addCmdRedo (c : AddCmd) (s : MainWin) : AddCmd × MainWin :=
  let s1 := { s with scene := sceneAdd s.scene c.rect }
  let r1 := addBubble s1 c.rect
  ({ c with listItem := r1.2 }, r1.1)

/-- `AddBubbleCommand.undo`: `self.main._remove_bubble_for(self.rect)`;
assigns no attribute of `self`. -/
def addCmdUndo (c : AddCmd) (s : MainWin) : AddCmd × MainWin :=
  (c, removeBubbleFor s c.rect)

/-- Geometry state of a `MoveableRectItem`: its scene position
(`setPos`) and its local rectangle (`setRect`). -/
structure ItemGeom where
  pos : ℚ × ℚ
  rect : QRectF
  deriving DecidableEq, Repr

/-- The fields of a `MoveBubbleCommand`: the item it targets and the
old and new scene geometries captured at construction. -/
structure MoveCmd where
  itemId : ℕ
  oldGeom : QRectF
  newGeom : QRectF
  deriving DecidableEq, Repr

/-- `MoveBubbleCommand._apply`: `setPos(scene_rect.x(), scene_rect.y())`
and `setRect(0, 0, scene_rect.width(), scene_rect.height())`.  The
`_on_programmatic_move` panel synchronisation touches no command or
item geometry state. -/
def applyGeom (g : QRectF) (it : ItemGeom) : ItemGeom :=
  { it with pos := (g.x, g.y), rect := { x := 0, y := 0, w := g.w, h := g.h } }

/-- `MoveBubbleCommand.redo`: `self._apply(self._new)`; assigns no
attribute of `self`. -/
def moveCmdRedo (c : MoveCmd) (it : ItemGeom) : MoveCmd × ItemGeom :=
  (c, applyGeom c.newGeom it)

/-- `MoveBubbleCommand.undo`: `self._apply(self._old)`; assigns no
attribute of `self`. -/
def moveCmdUndo (c : MoveCmd) (it : ItemGeom) : MoveCmd × ItemGeom :=
  (c, applyGeom c.oldGeom it)

/-! ## Registry operation traces

The calls the bubble-registry consistency claim quantifies over.  A
`RemoveBubbleCommand.undo` call carries the state the command captured
at construction; the undo stack replays it only after the command's
`redo` ran last, so at call time the captured list item was allocated
earlier (`lid < nextLid`) and is no longer in the bubble list.  These
two protocol facts are the validity condition of the trace. -/

inductive RegOp where
  | add : RectItem → RegOp
  | removeAt : ℤ → RegOp
  | removeFor : RectItem → RegOp
  | clear : RegOp
  | undoRemove : RemoveCmd → RegOp

/-- One registry call. -/
def regStep (s : MainWin) : RegOp → MainWin
  | .add r => (addBubble s r).1
  | .removeAt idx => removeBubble s idx
  | .removeFor r => removeBubbleFor s r
  | .clear => clearBubbles s
  | .undoRemove c => (removeCmdUndo c s).2

/-- Whether a registry call is one the running program can issue in
state `s` (only `undo` is constrained, as described above). -/
def regValidB (s : MainWin) : RegOp → Bool
  | .undoRemove c =>
    decide (c.listItem.lid < s.nextLid) &&
      s.bubbleList.all (fun li => li.lid != c.listItem.lid)
  | _ => true

/-- Validity of a whole call sequence, step by step. -/
def regValidTraceB : MainWin → List RegOp → Bool
  | _, [] => true
  | s, op :: ops => regValidB s op && regValidTraceB (regStep s op) ops

/-- Running a sequence of registry calls. -/
def regRun (s : MainWin) : List RegOp → MainWin
  | [] => s
  | op :: ops => regRun (regStep s op) ops

/-- The registry invariant: the bubble-list rows are exactly the first
components of `_rect_list` in order; list-item identities are distinct;
and every identity in use is below the allocator counter. -/
def RegInv (s : MainWin) : Prop :=
  s.bubbleList = s.rectList.map Prod.fst ∧
  (s.bubbleList.map (·.lid)).Nodup ∧
  ∀ li ∈ s.bubbleList, li.lid < s.nextLid

theorem regInv_mainWin0 : RegInv mainWin0 := by
  refine ⟨rfl, List.nodup_nil, ?_⟩
  intro li h
  simp [mainWin0] at h

theorem map_insertIdx (f : α → β) :
    ∀ (n : ℕ) (a : α) (l : List α),
      (l.insertIdx n a).map f = (l.map f).insertIdx n (f a)
  | 0, _, _ => rfl
  | _ + 1, _, [] => rfl
  | n + 1, a, b :: l => by
    simp [List.insertIdx_succ_cons, map_insertIdx f n a l]

theorem map_eraseIdx (f : α → β) :
    ∀ (l : List α) (j : ℕ), (l.eraseIdx j).map f = (l.map f).eraseIdx j
  | [], _ => rfl
  | _ :: _, 0 => rfl
  | a :: l, j + 1 => by simp [List.eraseIdx, map_eraseIdx f l j]

theorem pyInsert_perm (n : ℕ) (a : α) (l : List α) :
    (pyInsert n a l).Perm (a :: l) := by
  unfold pyInsert
  split
  · exact List.perm_append_singleton a l
  · exact List.perm_insertIdx a l (by omega)

theorem map_pyInsert (f : α → β) (n : ℕ) (a : α) (l : List α) :
    (pyInsert n a l).map f = pyInsert n (f a) (l.map f) := by
  unfold pyInsert
  rw [List.length_map]
  split
  · simp
  · exact map_insertIdx f n a l

theorem pyInsert_zero (a : α) (l : List α) : pyInsert 0 a l = a :: l := by
  unfold pyInsert
  split
  · have : l = [] := List.length_eq_zero.mp (by omega)
    simp [this]
  · simp

theorem pyInsert_cons (n : ℕ) (a b : α) (l : List α) :
    pyInsert (n + 1) a (b :: l) = b :: pyInsert n a l := by
  unfold pyInsert
  simp only [List.length_cons, Nat.add_le_add_iff_right, List.insertIdx_succ_cons]
  split <;> simp

theorem pyInsert_eraseIdx_get :
    ∀ (l : List α) (j : ℕ) (a : α), l.get? j = some a →
      pyInsert j a (l.eraseIdx j) = l
  | [], j, a, h => by simp at h
  | b :: l, 0, a, h => by
    simp at h
    subst h
    simp [List.eraseIdx, pyInsert_zero]
  | b :: l, j + 1, a, h => by
    simp only [List.get?_cons_succ] at h
    simp [List.eraseIdx, pyInsert_cons, pyInsert_eraseIdx_get l j a h]

theorem regInv_addBubble (s : MainWin) (r : RectItem) (h : RegInv s) :
    RegInv (addBubble s r).1 := by
  obtain ⟨ha, hn, hb⟩ := h
  by_cases hc : s.rectList.any (fun p => p.2.rid = r.rid)
  · simp only [addBubble, if_pos hc]
    exact ⟨ha, hn, hb⟩
  · simp only [addBubble, if_neg hc]
    refine ⟨?_, ?_, ?_⟩
    · show s.bubbleList ++ [_] = (s.rectList ++ [_]).map Prod.fst
      rw [List.map_append, ha]
      rfl
    · show (List.map (·.lid) (s.bubbleList ++ [_])).Nodup
      rw [List.map_append]
      refine List.nodup_append.mpr ⟨hn, by simp, ?_⟩
      intro x hx hx'
      simp only [List.mem_map] at hx
      obtain ⟨li', hli', hlid⟩ := hx
      simp only [List.map_cons, List.map_nil, List.mem_singleton] at hx'
      have := hb li' hli'
      omega
    · intro li' hm
      rcases List.mem_append.mp hm with hm | hm
      · exact Nat.lt_succ_of_lt (hb li' hm)
      · simp only [List.mem_singleton] at hm
        subst hm
        exact Nat.lt_succ_self _

theorem regInv_removeBubbleAt (s : MainWin) (jn : ℕ) (h : RegInv s) :
    RegInv (removeBubbleAt s jn) := by
  obtain ⟨ha, hn, hb⟩ := h
  unfold removeBubbleAt
  cases hget : s.rectList.get? jn with
  | none => exact ⟨ha, hn, hb⟩
  | some p =>
    obtain ⟨li, r⟩ := p
    have hbl : s.bubbleList[jn]? = some li := by
      rw [← List.get?_eq_getElem?, ha, List.get?_map, hget]
      rfl
    obtain ⟨hlt, hgetb⟩ := List.getElem?_eq_some.mp hbl
    have hblnd : s.bubbleList.Nodup := hn.of_map
    have hidx : List.indexOf li s.bubbleList = jn := by
      have := List.indexOf_getElem hblnd jn hlt
      rwa [hgetb] at this
    have herase : s.bubbleList.erase li = s.bubbleList.eraseIdx jn := by
      rw [← List.eraseIdx_indexOf_eq_erase, hidx]
    refine ⟨?_, ?_, ?_⟩
    · show s.bubbleList.erase li = (s.rectList.eraseIdx jn).map Prod.fst
      rw [herase, ha, map_eraseIdx]
    · show (List.map (·.lid) (s.bubbleList.erase li)).Nodup
      rw [herase]
      exact hn.sublist ((List.eraseIdx_sublist _ _).map _)
    · show ∀ li' ∈ s.bubbleList.erase li, li'.lid < s.nextLid
      intro li' hm
      rw [herase] at hm
      exact hb li' ((List.eraseIdx_sublist _ _).subset hm)

theorem regInv_removeBubble (s : MainWin) (idx : ℤ) (h : RegInv s) :
    RegInv (removeBubble s idx) := by
  simp only [removeBubble]
  split <;> split
  · exact regInv_removeBubbleAt s _ h
  · exact h
  · exact regInv_removeBubbleAt s _ h
  · exact h

theorem regInv_removeBubbleFor (s : MainWin) (r : RectItem) (h : RegInv s) :
    RegInv (removeBubbleFor s r) := by
  unfold removeBubbleFor
  cases findRectIdx r s.rectList with
  | none => exact h
  | some j => exact regInv_removeBubble s j h

theorem regInv_clearBubbles (s : MainWin) (h : RegInv s) :
    RegInv (clearBubbles s) := by
  refine ⟨rfl, List.nodup_nil, ?_⟩
  intro li hm
  simp [clearBubbles] at hm

theorem regInv_removeCmdUndo (s : MainWin) (c : RemoveCmd) (h : RegInv s)
    (hlt : c.listItem.lid < s.nextLid)
    (hfresh : ∀ li ∈ s.bubbleList, li.lid ≠ c.listItem.lid) :
    RegInv (removeCmdUndo c s).2 := by
  obtain ⟨ha, hn, hb⟩ := h
  have hperm := pyInsert_perm c.row c.listItem s.bubbleList
  refine ⟨?_, ?_, ?_⟩
  · show pyInsert c.row c.listItem s.bubbleList =
      (pyInsert c.row (c.listItem, c.rectItem) s.rectList).map Prod.fst
    rw [map_pyInsert, ha]
  · show (List.map (·.lid) (pyInsert c.row c.listItem s.bubbleList)).Nodup
    have hpm := hperm.map (·.lid)
    refine hpm.symm.nodup ?_
    simp only [List.map_cons, List.nodup_cons]
    refine ⟨?_, hn⟩
    intro hmem
    simp only [List.mem_map] at hmem
    obtain ⟨li', hli', hlid⟩ := hmem
    exact hfresh li' hli' hlid
  · intro li hm
    have hmc : li ∈ c.listItem :: s.bubbleList := hperm.subset hm
    rcases List.mem_cons.mp hmc with hm' | hm'
    · subst hm'
      exact hlt
    · exact hb li hm'

theorem regInv_step (s : MainWin) (op : RegOp) (h : RegInv s)
    (hv : regValidB s op = true) : RegInv (regStep s op) := by
  cases op with
  | add r => exact regInv_addBubble s r h
  | removeAt idx => exact regInv_removeBubble s idx h
  | removeFor r => exact regInv_removeBubbleFor s r h
  | clear => exact regInv_clearBubbles s h
  | undoRemove c =>
    simp only [regValidB, Bool.and_eq_true, decide_eq_true_eq, List.all_eq_true,
      bne_iff_ne, ne_eq] at hv
    exact regInv_removeCmdUndo s c h hv.1 (fun li hm => hv.2 li hm)

theorem regInv_run : ∀ (ops : List RegOp) (s : MainWin), RegInv s →
    regValidTraceB s ops = true → RegInv (regRun s ops)
  | [], _, h, _ => h
  | op :: ops, s, h, hv => by
    simp only [regValidTraceB, Bool.and_eq_true] at hv
    exact regInv_run ops (regStep s op) (regInv_step s op h hv.1) hv.2

theorem erase_eq_eraseIdx_of_get {α} [DecidableEq α] (l : List α) (j : ℕ) (a : α)
    (hnd : l.Nodup) (hget : l.get? j = some a) : l.erase a = l.eraseIdx j := by
  have hbl : l[j]? = some a := by
    rw [← List.get?_eq_getElem?]
    exact hget
  obtain ⟨hlt, hgetb⟩ := List.getElem?_eq_some.mp hbl
  have hidx : List.indexOf a l = j := by
    have := List.indexOf_getElem hnd j hlt
    rwa [hgetb] at this
  rw [← List.eraseIdx_indexOf_eq_erase, hidx]

theorem removeBubbleAt_eq (s : MainWin) (jn : ℕ) (li : BListItem) (rc : RectItem)
    (hget : s.rectList.get? jn = some (li, rc)) :
    removeBubbleAt s jn =
      { s with rectList := s.rectList.eraseIdx jn,
               scene := sceneRemove s.scene rc,
               bubbleList := s.bubbleList.erase li } := by
  unfold removeBubbleAt
  rw [hget]

theorem removeBubble_natCast (s : MainWin) (r : ℕ) (h : r < s.rectList.length) :
    removeBubble s (r : ℤ) = removeBubbleAt s r := by
  simp only [removeBubble]
  rw [if_neg (by omega : ¬ ((r : ℤ) < 0)),
      if_pos ⟨by omega, by exact_mod_cast h⟩, Int.toNat_natCast]

theorem findRectIdx_eq_some :
    ∀ (l : List (BListItem × RectItem)) (r : ℕ) (li : BListItem) (rect : RectItem),
      l.get? r = some (li, rect) →
      ((l.take r).all (fun p => p.2.rid != rect.rid)) = true →
      findRectIdx rect l = some r
  | [], r, _, _, hget, _ => by simp at hget
  | p :: t, 0, li, rect, hget, _ => by
    simp only [List.get?_cons_zero, Option.some.injEq] at hget
    subst hget
    simp [findRectIdx]
  | p :: t, r + 1, li, rect, hget, hall => by
    simp only [List.get?_cons_succ] at hget
    simp only [List.take_succ_cons, List.all_cons, Bool.and_eq_true, bne_iff_ne,
      ne_eq] at hall
    rw [findRectIdx, if_neg hall.1,
      findRectIdx_eq_some t r li rect hget hall.2]
    rfl

theorem findRowItem_eq_some :
    ∀ (bl : List BListItem) (r : ℕ) (li : BListItem) (rid : ℕ),
      bl.get? r = some li → li.dataRect = rid →
      ((bl.take r).all (fun x => x.dataRect != rid)) = true →
      findRowItem rid bl = some (r, li)
  | [], r, _, _, hget, _, _ => by simp at hget
  | x :: t, 0, li, rid, hget, hdata, _ => by
    simp only [List.get?_cons_zero, Option.some.injEq] at hget
    subst hget
    simp [findRowItem, hdata]
  | x :: t, r + 1, li, rid, hget, hdata, hall => by
    simp only [List.get?_cons_succ] at hget
    simp only [List.take_succ_cons, List.all_cons, Bool.and_eq_true, bne_iff_ne,
      ne_eq] at hall
    rw [findRowItem, if_neg hall.1,
      findRowItem_eq_some t r li rid hget hdata hall.2]
    rfl

theorem removeBubbleFor_eq (s : MainWin) (r : ℕ) (li : BListItem) (rect : RectItem)
    (hget : s.rectList.get? r = some (li, rect))
    (hall : ((s.rectList.take r).all (fun p => p.2.rid != rect.rid)) = true) :
    removeBubbleFor s rect =
      { s with rectList := s.rectList.eraseIdx r,
               scene := sceneRemove s.scene rect,
               bubbleList := s.bubbleList.erase li } := by
  have hlt : r < s.rectList.length := (List.get?_eq_some.mp hget).1
  unfold removeBubbleFor
  rw [findRectIdx_eq_some s.rectList r li rect hget hall]
  show removeBubble s (r : ℤ) = _
  rw [removeBubble_natCast s r hlt, removeBubbleAt_eq s r li rect hget]

/-! ## Concrete fixtures used by the witnesses below -/

/-- A concrete rectangle item. -/
def rect0 : RectItem := { rid := 0, kind := "bubble", done := false }

/-- The list item `_add_bubble` creates for `rect0` in the empty
registry. -/
def item0 : BListItem :=
  { lid := 0, text := "Bubble 1", checked := false, dataRect := 0 }

/-- The registry state holding exactly `rect0`. -/
def regWin1 : MainWin :=
  { rectList := [(item0, rect0)], bubbleList := [item0], scene := [rect0],
    nextLid := 1, dirty := false }

/-- A concrete trace: add a bubble, remove it by index, undo the
removal. -/
def opsW : List RegOp :=
  [.add rect0, .removeAt 0, .undoRemove ⟨0, item0, rect0⟩]

theorem parseEntry_canon_annEntry (a : AnnotationData) :
    parseEntry (canon (annEntry a)) = .ok (annCanon a) := rfl

theorem parseEntries_canonList (l : List AnnotationData) :
    parseEntries (canonList (l.map annEntry)) = .ok (l.map annCanon) := by
  induction l with
  | nil => rfl
  | cons a t ih =>
    show (do
      let a' ← parseEntry (canon (annEntry a))
      let l' ← parseEntries (canonList (t.map annEntry))
      (.ok (a' :: l') : Except PyErr (List AnnotationData))) = _
    rw [parseEntry_canon_annEntry, ih]
    rfl

/-! ## The claims -/

/-- C2 (counterexample): `AddBubbleCommand` is mutated after creation —
its first `redo` in the empty registry reassigns `self.list_item` from
`None` to the freshly created list item, so the command object no
longer equals its state at the end of construction. -/
theorem addCmd_redo_mutates :
    (addCmdRedo (mkAddCmd rect0) mainWin0).1 ≠ mkAddCmd rect0 := by
  decide

/-- C2 (amended): `RemoveBubbleCommand` and `MoveBubbleCommand` are
never mutated by `redo` or `undo`, and `AddBubbleCommand.undo` and the
`main` / `rect` fields of `AddBubbleCommand` are likewise untouched;
only `AddBubbleCommand.redo` reassigns the command's `list_item`
field. -/
theorem command_fields_never_mutated (c₁ : RemoveCmd) (c₂ : MoveCmd) (c₃ : AddCmd)
    (s s' s'' : MainWin) (it it' : ItemGeom) :
    (removeCmdRedo c₁ s).1 = c₁ ∧ (removeCmdUndo c₁ s').1 = c₁ ∧
    (moveCmdRedo c₂ it).1 = c₂ ∧ (moveCmdUndo c₂ it').1 = c₂ ∧
    (addCmdUndo c₃ s'').1 = c₃ ∧
    (addCmdRedo c₃ s).1.rect = c₃.rect :=
  ⟨rfl, rfl, rfl, rfl, rfl, rfl⟩

/-- C4: `MoveBubbleCommand.redo` sets the item's position to
`(new_geom.x, new_geom.y)` and its local rect to
`(0, 0, new_geom.width, new_geom.height)`, `undo` sets them from
`old_geom`, and `undo` after `redo` leaves the item in exactly the
geometry described by `old_geom`. -/
theorem moveCmd_redo_undo_geometry (c : MoveCmd) (it it' : ItemGeom) :
    (moveCmdRedo c it).2.pos = (c.newGeom.x, c.newGeom.y) ∧
    (moveCmdRedo c it).2.rect = { x := 0, y := 0, w := c.newGeom.w, h := c.newGeom.h } ∧
    (moveCmdUndo c it').2.pos = (c.oldGeom.x, c.oldGeom.y) ∧
    (moveCmdUndo c it').2.rect = { x := 0, y := 0, w := c.oldGeom.w, h := c.oldGeom.h } ∧
    (moveCmdUndo c (moveCmdRedo c it).2).2 =
      { pos := (c.oldGeom.x, c.oldGeom.y),
        rect := { x := 0, y := 0, w := c.oldGeom.w, h := c.oldGeom.h } } :=
  ⟨rfl, rfl, rfl, rfl, rfl⟩

/-- C5 (counterexample): the sidecar round trip is not the identity on
`AnnotationData`: an annotation whose `rect` is the Python tuple
`(10, 20, 30, 40)` — the declared field type of the dataclass — comes
back with `rect` equal to the list `[10, 20, 30, 40]`, and the two are
not equal in Python. -/
theorem saveLoadRoundTrip_not_identity :
    saveLoadRoundTrip
        [{ rect := .tup [.num 10, .num 20, .num 30, .num 40] }] ≠
      [{ rect := .tup [.num 10, .num 20, .num 30, .num 40] }] := by
  have h : saveLoadRoundTrip
      [{ rect := .tup [.num 10, .num 20, .num 30, .num 40] }] =
      [{ rect := .arr [.num 10, .num 20, .num 30, .num 40] }] := rfl
  rw [h]
  simp [annEntry]

/-- C5 (amended): the round trip through `AnnotationController.save`
and `AnnotationController.load` restores every annotation field-wise up
to JSON serialisation: each `rect`, `kind`, `done`, `ocr` and
`translation` value comes back unchanged except that Python tuples
anywhere inside it return as lists of the same elements, because both
serialise to JSON arrays. -/
theorem saveLoadRoundTrip_canon (l : List AnnotationData) :
    saveLoadRoundTrip l = l.map annCanon := by
  show loadAnnList (.doc (canon (savePayload l))) = l.map annCanon
  have h : canon (savePayload l) =
      .obj [("bubbles", .arr (canonList (l.map annEntry)))] := rfl
  rw [h]
  show (match parseEntries (canonList (l.map annEntry)) with
        | .ok l' => l'
        | .error _ => []) = l.map annCanon
  rw [parseEntries_canonList]

/-- C6: `AnnotationController.remove` cannot delete anything: on any
non-empty collection the lookup `a.id` raises `AttributeError` because
`AnnotationData` has no `id` field (the class's own docstring and the
`bubble_removed` signal comment promise removal by id); only on the
empty collection does it behave as documented, leaving the collection
unchanged and emitting nothing. -/
theorem annRemove_attributeError :
    annRemove [{ rect := .tup [.num 0, .num 0, .num 1, .num 1] }] 0 =
      .error .attributeError ∧
    annRemove [] 0 = .ok ([], none) :=
  ⟨rfl, rfl⟩

/-- C7: `SpeechBubbleDetector.detect` and `OCREngine.recognize` raise
`RuntimeError` exactly when called before the background model load has
completed (`ready()` false); once `ready()` is true neither raises for
that reason — `recognize` can still raise `ValueError` for an
unsupported input type, which is a different exception. -/
theorem detect_recognize_ready_gate (d : SpeechBubbleDetector) (p : String)
    (mc : ℚ) (e : OCREngine) (io : String → PILImage)
    (fa : NdArray → PILImage) (inp : OcrInput) :
    (detect d p mc = .error .runtimeError ↔ d.ready = false) ∧
    (recognize e io fa inp = .error .runtimeError ↔ e.ready = false) := by
  constructor
  · by_cases hr : d.ready = false
    · simp [detect, hr]
    · simp only [detect, hr, if_false]
      cases d.model <;> simp [hr]
  · by_cases hr : e.ready = false
    · simp [recognize, hr]
    · simp only [recognize, hr, if_false]
      cases inp <;> cases hoc : e.ocr <;> simp [hr, ocrCall, hoc]

/-- C8: page navigation is sequential over the sorted `*.jpg` siblings:
a successful `load_page` sets `pages` to the sorted sibling list and
`current_page_idx` to the index of the loaded page in it; `next_page`
loads the page at `current_page_idx + 1` only when `current_page_idx <
len(pages) - 1`, `prev_page` loads `current_page_idx - 1` only when
`current_page_idx > 0`, and at the last or first page the corresponding
action changes nothing. -/
theorem page_navigation_sequential (s : NavState) (dir : List PageFile)
    (p : PageFile) (dOk iOk : Bool) (i : ℕ) :
    (¬ (s.dirty = true ∧ dOk = false) →
      pyIndexOf p (sortedJpgs dir) = .ok i →
      loadPage s dir p dOk true =
        { s with curImgPath := some p, pages := sortedJpgs dir,
                 currentPageIdx := (i : ℤ) }) ∧
    ((s.pages.length : ℤ) - 1 ≤ s.currentPageIdx →
      nextPage s dir dOk iOk = s) ∧
    (s.currentPageIdx ≤ 0 → prevPage s dir dOk iOk = s) ∧
    (s.currentPageIdx < (s.pages.length : ℤ) - 1 →
      pyGet s.pages (s.currentPageIdx + 1) = some p →
      nextPage s dir dOk iOk = loadPage s dir p dOk iOk) ∧
    (0 < s.currentPageIdx →
      pyGet s.pages (s.currentPageIdx - 1) = some p →
      prevPage s dir dOk iOk = loadPage s dir p dOk iOk) := by
  refine ⟨?_, ?_, ?_, ?_, ?_⟩
  · intro h1 hpi
    simp only [loadPage]
    rw [if_neg h1, if_neg (by simp), hpi]
  · intro h
    simp only [nextPage]
    rw [if_neg (by omega)]
  · intro h
    simp only [prevPage]
    rw [if_neg (by omega)]
  · intro h hget
    simp only [nextPage]
    rw [if_pos h, hget]
  · intro h hget
    simp only [prevPage]
    rw [if_pos h, hget]

/-- Witness for C8: in the directory `{2.jpg, 1.jpg, 3.png}` loading
`2.jpg` from the initial state yields the sorted jpg list with index 1,
and `prev_page` at the initial index `-1` changes nothing. -/
theorem page_navigation_sequential_witness :
    loadPage ⟨[], -1, none, false⟩ [⟨2, true⟩, ⟨1, true⟩, ⟨3, false⟩]
        ⟨2, true⟩ true true =
      { pages := [⟨1, true⟩, ⟨2, true⟩], currentPageIdx := (1 : ℤ),
        curImgPath := some ⟨2, true⟩, dirty := false } ∧
    prevPage ⟨[], -1, none, false⟩ [⟨2, true⟩, ⟨1, true⟩, ⟨3, false⟩]
        true true = ⟨[], -1, none, false⟩ :=
  ⟨(page_navigation_sequential ⟨[], -1, none, false⟩
      [⟨2, true⟩, ⟨1, true⟩, ⟨3, false⟩] ⟨2, true⟩ true true 1).1
      (by simp) rfl,
   (page_navigation_sequential ⟨[], -1, none, false⟩
      [⟨2, true⟩, ⟨1, true⟩, ⟨3, false⟩] ⟨2, true⟩ true true 1).2.2.1
      (by decide)⟩

/-- C9: `AnnotationController.load` never raises: a missing sidecar
file and an unreadable or unparsable one each emit the empty list, any
document rejected by the entry extraction also emits the empty list,
and a parsed entry defaults each missing field to `kind="bubble"`,
`done=False`, `ocr=""`, `translation=""`. -/
theorem load_empty_on_failure_and_defaults :
    loadAnnList .absent = [] ∧
    loadAnnList .unreadable = [] ∧
    (∀ raw e, parseDoc raw = .error e → loadAnnList (.doc raw) = []) ∧
    (∀ kvs a, parseEntry (.obj kvs) = .ok a →
      (dictGet "kind" kvs = none → a.kind = .str "bubble") ∧
      (dictGet "done" kvs = none → a.done = .bool false) ∧
      (dictGet "ocr" kvs = none → a.ocr = .str "") ∧
      (dictGet "translation" kvs = none → a.translation = .str "")) := by
  refine ⟨rfl, rfl, ?_, ?_⟩
  · intro raw e h
    simp only [loadAnnList, h]
  · intro kvs a h
    simp only [parseEntry] at h
    cases hr : dictGet "rect" kvs with
    | none => rw [hr] at h; cases h
    | some r =>
      rw [hr] at h
      injection h with h
      subst h
      refine ⟨?_, ?_, ?_, ?_⟩ <;> intro hk <;> simp [hk]

/-- Witness for C9: a document that is a bare number is rejected and
loads as the empty list, and the entry `{"rect": null}` parses with all
four defaults. -/
theorem load_empty_on_failure_and_defaults_witness :
    loadAnnList (.doc (.num 0)) = [] ∧
    parseEntry (.obj [("rect", .null)]) =
      .ok { rect := .null, kind := .str "bubble", done := .bool false,
            ocr := .str "", translation := .str "" } ∧
    ({ rect := .null, kind := .str "bubble", done := .bool false,
       ocr := .str "", translation := .str "" } : AnnotationData).kind =
      .str "bubble" :=
  ⟨load_empty_on_failure_and_defaults.2.2.1 (.num 0) .attributeError rfl,
   rfl,
   (load_empty_on_failure_and_defaults.2.2.2 [("rect", .null)]
     { rect := .null, kind := .str "bubble", done := .bool false,
       ocr := .str "", translation := .str "" } rfl).1 rfl⟩

/-- C10: `PanelViewer.crop_region` is safe for every input rectangle:
with no image loaded it returns `None`, and whenever it returns a
sub-image the clamped integer slice coordinates satisfy `0 ≤ x`,
`0 ≤ y`, `0 < w`, `0 < h`, `x + w ≤ image width` and
`y + h ≤ image height`, so the slice `orig_cv[y:y+h, x:x+w]` never
exceeds the image bounds. -/
theorem cropRegion_safe (v : PanelViewer) (r : QRectF) :
    (v.origCv = none → cropRegion v r = none) ∧
    (∀ img x y w h, v.origCv = some img →
      cropRegion v r = some (x, y, w, h) →
      0 ≤ x ∧ 0 ≤ y ∧ 0 < w ∧ 0 < h ∧
      x + w ≤ (img.w0 : ℤ) ∧ y + h ≤ (img.h0 : ℤ)) := by
  constructor
  · intro h
    simp [cropRegion, h]
  · intro img x y w h himg hc
    simp only [cropRegion, himg] at hc
    by_cases hpix : v.pixmapNull
    · rw [if_pos hpix] at hc
      cases hc
    · rw [if_neg hpix] at hc
      split at hc
      · cases hc
      · rename_i hwh
        simp only [Option.some.injEq, Prod.mk.injEq] at hc
        obtain ⟨hx, hy, hw, hh⟩ := hc
        subst hx
        subst hy
        subst hw
        subst hh
        push_neg at hwh
        refine ⟨?_, ?_, ?_, ?_, ?_, ?_⟩ <;> omega

/-- C1: after any program-realizable sequence of calls to
`_add_bubble`, `_remove_bubble`, `_remove_bubble_for`, `clear_bubbles`
and `RemoveBubbleCommand.undo` (each `undo` replayed by the undo stack,
so its captured list item was allocated earlier and is not currently in
the list), `_rect_list` and `bubble_list` have the same length and the
i-th `bubble_list` row is exactly the list item of the i-th pair of
`_rect_list`. -/
theorem bubble_registry_consistent (ops : List RegOp)
    (hv : regValidTraceB mainWin0 ops = true) :
    (regRun mainWin0 ops).bubbleList.length =
      (regRun mainWin0 ops).rectList.length ∧
    ∀ i : ℕ, (regRun mainWin0 ops).bubbleList.get? i =
      ((regRun mainWin0 ops).rectList.get? i).map Prod.fst := by
  obtain ⟨ha, -, -⟩ := regInv_run ops mainWin0 regInv_mainWin0 hv
  refine ⟨?_, ?_⟩
  · rw [ha, List.length_map]
  · intro i
    rw [ha, List.get?_map]

/-- Witness for C1: the add / remove-by-index / undo trace is valid and
ends in an aligned state. -/
theorem bubble_registry_consistent_witness :
    regValidTraceB mainWin0 opsW = true ∧
    (regRun mainWin0 opsW).bubbleList.length =
      (regRun mainWin0 opsW).rectList.length ∧
    (regRun mainWin0 opsW).bubbleList.get? 0 =
      ((regRun mainWin0 opsW).rectList.get? 0).map Prod.fst :=
  ⟨by decide, (bubble_registry_consistent opsW (by decide)).1,
   (bubble_registry_consistent opsW (by decide)).2 0⟩

/-- C3: a `RemoveBubbleCommand` built while its rectangle's list item
sits at row `r` captures exactly `(r, listitem)`; its `redo` removes
row `r` from both `_rect_list` and `bubble_list` and the rectangle from
the scene; its `undo` then restores both lists exactly — the same list
item and rectangle back at row `r` — and puts the rectangle back into
the scene.  The hypotheses say the registry is in a consistent state,
row `r` holds the rectangle's pair (with no earlier row for the same
rectangle, and the item's `Qt.UserRole` data pointing at it), and the
scene holds no duplicate items. -/
theorem removeCmd_captures_and_restores
    (s : MainWin) (r : ℕ) (li : BListItem) (rect : RectItem)
    (hinv : RegInv s)
    (hget : s.rectList.get? r = some (li, rect))
    (hdata : li.dataRect = rect.rid)
    (hrow : ((s.bubbleList.take r).all (fun x => x.dataRect != rect.rid)) = true)
    (hrect : ((s.rectList.take r).all (fun p => p.2.rid != rect.rid)) = true)
    (hscene : s.scene.Nodup) :
    mkRemoveCmd s rect = some ⟨r, li, rect⟩ ∧
    (removeCmdRedo ⟨r, li, rect⟩ s).2.rectList = s.rectList.eraseIdx r ∧
    (removeCmdRedo ⟨r, li, rect⟩ s).2.bubbleList = s.bubbleList.eraseIdx r ∧
    rect ∉ (removeCmdRedo ⟨r, li, rect⟩ s).2.scene ∧
    (removeCmdUndo ⟨r, li, rect⟩ (removeCmdRedo ⟨r, li, rect⟩ s).2).2.rectList =
      s.rectList ∧
    (removeCmdUndo ⟨r, li, rect⟩ (removeCmdRedo ⟨r, li, rect⟩ s).2).2.bubbleList =
      s.bubbleList ∧
    rect ∈ (removeCmdUndo ⟨r, li, rect⟩ (removeCmdRedo ⟨r, li, rect⟩ s).2).2.scene := by
  obtain ⟨ha, hn, hb⟩ := hinv
  have hbl : s.bubbleList.get? r = some li := by
    rw [ha, List.get?_map, hget]
    rfl
  have hcap : mkRemoveCmd s rect = some ⟨r, li, rect⟩ := by
    unfold mkRemoveCmd
    rw [findRowItem_eq_some s.bubbleList r li rect.rid hbl hdata hrow]
    rfl
  have hfr := removeBubbleFor_eq s r li rect hget hrect
  have herase : s.bubbleList.erase li = s.bubbleList.eraseIdx r :=
    erase_eq_eraseIdx_of_get s.bubbleList r li hn.of_map hbl
  have hnotmem : rect ∉ s.scene.erase rect := hscene.not_mem_erase
  refine ⟨hcap, ?_, ?_, ?_, ?_, ?_, ?_⟩
  · show (removeBubbleFor s rect).rectList = s.rectList.eraseIdx r
    rw [hfr]
  · show (removeBubbleFor s rect).bubbleList = s.bubbleList.eraseIdx r
    rw [hfr]
    exact herase
  · show rect ∉ (removeBubbleFor s rect).scene
    rw [hfr]
    exact hnotmem
  · show (removeCmdUndo ⟨r, li, rect⟩ (removeBubbleFor s rect)).2.rectList =
      s.rectList
    rw [hfr]
    show pyInsert r (li, rect) (s.rectList.eraseIdx r) = s.rectList
    exact pyInsert_eraseIdx_get s.rectList r (li, rect) hget
  · show (removeCmdUndo ⟨r, li, rect⟩ (removeBubbleFor s rect)).2.bubbleList =
      s.bubbleList
    rw [hfr]
    show pyInsert r li (s.bubbleList.erase li) = s.bubbleList
    rw [herase]
    exact pyInsert_eraseIdx_get s.bubbleList r li hbl
  · show rect ∈ (removeCmdUndo ⟨r, li, rect⟩ (removeBubbleFor s rect)).2.scene
    rw [hfr]
    show rect ∈ sceneAdd (sceneRemove s.scene rect) rect
    unfold sceneAdd sceneRemove
    rw [if_neg hnotmem]
    simp

/-- Witness for C3: the command built for `rect0` at row 0 of the
one-bubble registry captures row 0 and its redo / undo round trip
restores the lists and the scene. -/
theorem removeCmd_captures_and_restores_witness :
    mkRemoveCmd regWin1 rect0 = some ⟨0, item0, rect0⟩ ∧
    (removeCmdUndo ⟨0, item0, rect0⟩ (removeCmdRedo ⟨0, item0, rect0⟩ regWin1).2).2.rectList =
      regWin1.rectList ∧
    rect0 ∈ (removeCmdUndo ⟨0, item0, rect0⟩ (removeCmdRedo ⟨0, item0, rect0⟩ regWin1).2).2.scene :=
  ⟨(removeCmd_captures_and_restores regWin1 0 item0 rect0 ⟨rfl, by decide, by decide⟩ rfl rfl
      (by decide) (by decide) (by decide)).1,
   (removeCmd_captures_and_restores regWin1 0 item0 rect0 ⟨rfl, by decide, by decide⟩ rfl rfl
      (by decide) (by decide) (by decide)).2.2.2.2.1,
   (removeCmd_captures_and_restores regWin1 0 item0 rect0 ⟨rfl, by decide, by decide⟩ rfl rfl
      (by decide) (by decide) (by decide)).2.2.2.2.2.2⟩

/-- Witness for C10: cropping the rectangle (5, 10, 20, 30) from a
loaded 100×80 image returns that very slice, within bounds. -/
theorem cropRegion_safe_witness :
    cropRegion { origCv := some { h0 := 80, w0 := 100 }, pixmapNull := false }
        { x := 5, y := 10, w := 20, h := 30 } = some (5, 10, 20, 30) ∧
    (0 ≤ (5 : ℤ) ∧ 0 ≤ (10 : ℤ) ∧ 0 < (20 : ℤ) ∧ 0 < (30 : ℤ) ∧
      (5 : ℤ) + 20 ≤ ((100 : ℕ) : ℤ) ∧ (10 : ℤ) + 30 ≤ ((80 : ℕ) : ℤ)) :=
  ⟨rfl,
   (cropRegion_safe { origCv := some { h0 := 80, w0 := 100 }, pixmapNull := false }
       { x := 5, y := 10, w := 20, h := 30 }).2
     { h0 := 80, w0 := 100 } 5 10 20 30 rfl rfl⟩
